import Mathlib

/-!
Verification of the Enhanced-Nextion-Library correlation engine.

Shallow embedding of the repository's core: the command queue and response
store (`NexQueues.cpp`), and the two historical revisions of the frame
decoder / message dispatcher (`NexHardware.cpp`).  Machine integers are
modelled as `Nat` with explicit reductions:

* `size_t` values (queue cursors, buffer offsets) wrap at `SIZE_T_MOD`
  (32-bit targets: ESP8266 / ARM boards, the library's primary platforms);
* `unsigned long` (`millis()` time stamps) wraps at `ULONG_MOD`;
* `byte` / `uint8_t` values are reduced `% 256` at every point where the
  C code stores into or reads from a `uint8_t` location.

Callback pointers are modelled by their null test (`Bool`): the dispatcher
only ever compares them against `nullptr` and invokes them; an invocation
is recorded as an emitted `Ev` value carrying the decoded payload.
-/

namespace Nextion

def SIZE_T_MOD : Nat := 2 ^ 32
def ULONG_MOD : Nat := 2 ^ 32

/-- `CMD_QUEUE_SIZE` from `NexHardware.h` (depth of the sent-event queue). -/
def CMD_QUEUE_SIZE : Nat := 8

/-- `RX_2ND_ARR_SIZE`: number of response-store slots (`NEX_RESP_ARR_SIZE`). -/
def RX_2ND_ARR_SIZE : Nat := 8

/-- Reply-head codes from `NexHardware.cpp`. -/
def NEX_RET_EVENT_NEXTION_STARTUP : Nat := 0x00
def NEX_RET_EVENT_TOUCH_HEAD : Nat := 0x65
def NEX_RET_CURRENT_PAGE_ID_HEAD : Nat := 0x66
def NEX_RET_EVENT_POSITION_HEAD : Nat := 0x67
def NEX_RET_EVENT_SLEEP_POSITION_HEAD : Nat := 0x68
def NEX_RET_STRING_HEAD : Nat := 0x70
def NEX_RET_NUMBER_HEAD : Nat := 0x71
def NEX_RET_AUTOMATIC_SLEEP : Nat := 0x86
def NEX_RET_AUTOMATIC_WAKE_UP : Nat := 0x87
def NEX_RET_EVENT_NEXTION_READY : Nat := 0x88
def NEX_RET_START_SD_UPGRADE : Nat := 0x89
def NEX_RET_CMD_FINISHED_OK : Nat := 0x01
def NEX_RET_SERIAL_BUFFER_OVERFLOW : Nat := 0x24
def NEX_END_TRANSMISSION_VALUE : Nat := 0xFF
def NEX_END_TRANSMISSION_LENGTH : Nat := 3

/-- `size_t` subtraction (wrapping), for the C expressions `RX_ind_old - 3`
and `RX_ind_old - 2`. -/
def sizeSub (a b : Nat) : Nat := (a + SIZE_T_MOD - b % SIZE_T_MOD) % SIZE_T_MOD

/-- Reinterpret a `uint32_t` bit pattern as `int32_t` (the C cast in the
numeric-reply branch). -/
def toInt32 (x : Nat) : Int :=
  let y : Nat := x % 2 ^ 32
  if y < 2 ^ 31 then (y : Int) else (y : Int) - 2 ^ 32

/-- Reinterpret a 16-bit pattern as `int16_t` (touch-coordinate decode). -/
def toInt16 (x : Nat) : Int :=
  let y : Nat := x % 2 ^ 16
  if y < 2 ^ 15 then (y : Int) else (y : Int) - 2 ^ 16

/-- `enum CommandTypes` from `NexQueues.h`. -/
inductive CommandTypes where
  | CT_command
  | CT_number
  | CT_stringHead
  | CT_stringHeadless
deriving DecidableEq, Repr

/-- `struct nexQueuedCommand` (`NexQueues.h`).  The anonymous union of
`numCB`/`strCB` is one storage location, modelled by the single field
`getCB` (`true` = non-null).  `succCB` exists only in the later revision
(`part_001`); the older revision never reads it.  `response` is the
pointer into the response store's `respQ` array, modelled as the slot
index it points at (`none` = `nullptr`). -/
structure NexQueuedCommand where
  successReturnCode : Nat
  getCB : Bool
  succCB : Bool
  failCB : Bool
  expiration_time : Nat
  cmdType : CommandTypes
  response : Option (Fin RX_2ND_ARR_SIZE)
deriving DecidableEq, Repr

/-- union member read `event.numCB` (same storage as `strCB`). -/
def NexQueuedCommand.numCB (c : NexQueuedCommand) : Bool := c.getCB

/-- union member read `event.strCB` (same storage as `numCB`). -/
def NexQueuedCommand.strCB (c : NexQueuedCommand) : Bool := c.getCB

def qidx (n : Nat) : Fin CMD_QUEUE_SIZE := ⟨n % CMD_QUEUE_SIZE, Nat.mod_lt n (by decide)⟩

/-- `class NexEventQueue`: ring buffer of `CMD_QUEUE_SIZE` commands with
free-running `size_t` cursors. -/
structure NexEventQueue where
  eventQ : Fin CMD_QUEUE_SIZE → NexQueuedCommand
  Qread : Nat
  Qwrite : Nat

/-- `NexEventQueue::enqueue`.  Returns (return value, new queue, the value
written through `saveSpot`).  The C writes the slot first, increments
`Qwrite`, then returns `((Qwrite+1 %CMD_QUEUE_SIZE) != (Qread %CMD_QUEUE_SIZE))`;
note `%` binds tighter than `+` in C, so the left side is `Qwrite + 1`. -/
def NexEventQueue.enqueue (q : NexEventQueue) (event : NexQueuedCommand) :
    Bool × NexEventQueue × Nat :=
  let eventQ2 := Function.update q.eventQ (qidx q.Qwrite) event
  let spot := q.Qwrite
  let w2 := (q.Qwrite + 1) % SIZE_T_MOD
  let ret := ((w2 + 1 % CMD_QUEUE_SIZE) % SIZE_T_MOD) != (q.Qread % CMD_QUEUE_SIZE)
  (ret, { eventQ := eventQ2, Qread := q.Qread, Qwrite := w2 }, spot)

/-- `NexEventQueue::dequeue` / `dequeuePtr`: pull from the front. -/
def NexEventQueue.dequeue (q : NexEventQueue) : NexQueuedCommand × NexEventQueue :=
  (q.eventQ (qidx q.Qread),
   { eventQ := q.eventQ, Qread := (q.Qread + 1) % SIZE_T_MOD, Qwrite := q.Qwrite })

/-- `NexEventQueue::isEmpty`. -/
def NexEventQueue.isEmpty (q : NexEventQueue) : Bool := q.Qread == q.Qwrite

/-- `NexEventQueue::peek` / `peekPtr`. -/
def NexEventQueue.peek (q : NexEventQueue) : NexQueuedCommand := q.eventQ (qidx q.Qread)

/-- `NexEventQueue::passedIndex`.  `returnVal` starts `false`; the
"wrap" branch may set it from a mod-`CMD_QUEUE_SIZE` comparison; the
"no wrap" branch overrides it to `true` whenever `Qread > *saveSpot`. -/
def NexEventQueue.passedIndex (q : NexEventQueue) (saveSpot : Option Nat) : Bool :=
  match saveSpot with
  | none => false
  | some s =>
    let wrapVal :=
      if q.Qwrite < CMD_QUEUE_SIZE ∧ q.Qread > CMD_QUEUE_SIZE then
        decide ((q.Qread % CMD_QUEUE_SIZE) > (s % CMD_QUEUE_SIZE))
      else false
    if q.Qread > s then true else wrapVal

/-- `NexEventQueue::clearExpiredCommands`, with `millis()` passed in as
`now`.  Returns (return value, new queue). -/
def NexEventQueue.clearExpiredCommands (q : NexEventQueue) (now : Nat) :
    Bool × NexEventQueue :=
  if q.isEmpty then (false, q)
  else
    let event := q.peek
    if now ≥ event.expiration_time then (true, (q.dequeue).2) else (false, q)

/-- `struct nexResponses`: a captured raw reply (byte buffer plus length). -/
structure NexResponses where
  RX_buf : Nat → Nat
  RX_ind : Nat

def NexResponses.init : NexResponses := { RX_buf := fun _ => 0, RX_ind := 0 }

def ridx (n : Nat) : Fin RX_2ND_ARR_SIZE := ⟨n % RX_2ND_ARR_SIZE, Nat.mod_lt n (by decide)⟩

/-- `class NexResponseQueue`: response store, a write-only ring of
`RX_2ND_ARR_SIZE` slots. -/
structure NexResponseQueue where
  respQ : Fin RX_2ND_ARR_SIZE → NexResponses
  Qwrite : Nat

/-- `NexResponseQueue::storeData`: if the event carries a response slot,
overwrite that slot's length and `memcpy` `RX_ind` bytes of the frame
buffer into it; otherwise report failure and change nothing. -/
def NexResponseQueue.storeData (store : NexResponseQueue) (event : NexQueuedCommand)
    (RX_ind : Nat) (RX_buffer : Nat → Nat) : Bool × NexResponseQueue :=
  match event.response with
  | some slot =>
      let old := store.respQ slot
      let newResp : NexResponses :=
        { RX_buf := fun i => if i < RX_ind then RX_buffer i % 256 else old.RX_buf i,
          RX_ind := RX_ind }
      (true, { store with respQ := Function.update store.respQ slot newResp })
  | none => (false, store)

/-- `NexResponseQueue::getResponseSlot`: hand out the slot at the write
cursor and advance; there is no failure path and no occupancy check. -/
def NexResponseQueue.getResponseSlot (store : NexResponseQueue) :
    Fin RX_2ND_ARR_SIZE × NexResponseQueue :=
  (ridx store.Qwrite, { store with Qwrite := (store.Qwrite + 1) % SIZE_T_MOD })

/-- Decoder state: the primary receive buffer, the write offset `RX_ind`,
and the terminator run counter `endTransCnt` (a `uint8_t`). -/
structure DecoderState where
  RX_buffer : Nat → Nat
  RX_ind : Nat
  endTransCnt : Nat

def DecoderState.init : DecoderState :=
  { RX_buffer := fun _ => 0, RX_ind := 0, endTransCnt := 0 }

/-- One byte of `Nextion::readSerialData`, older revision (`part_000`,
plain run counting: the count is never reset on a non-terminator byte).
Returns the new state and `some frameLength` when a frame completed. -/
def readByte0 (s : DecoderState) (newData0 : Nat) : DecoderState × Option Nat :=
  let newData := newData0 % 256
  let buf := Function.update s.RX_buffer s.RX_ind newData
  let ind1 := (s.RX_ind + 1) % SIZE_T_MOD
  let ind2 := if newData == NEX_END_TRANSMISSION_VALUE && ind1 == 1 then ind1 - 1 else ind1
  if newData == NEX_END_TRANSMISSION_VALUE && decide (ind2 > 1) then
    let cnt := (s.endTransCnt + 1) % 256
    if cnt == NEX_END_TRANSMISSION_LENGTH then
      ({ RX_buffer := buf, RX_ind := 0, endTransCnt := 0 }, some ind2)
    else ({ RX_buffer := buf, RX_ind := ind2, endTransCnt := cnt }, none)
  else ({ RX_buffer := buf, RX_ind := ind2, endTransCnt := s.endTransCnt }, none)

/-- One byte of `Nextion::readSerialData`, later revision (`part_001`):
a numeric frame (`RX_buffer[0] == 0x71`) counts terminator bytes only
from position 6 onward; otherwise a terminator byte continues a run iff
the previous byte was a terminator XOR the count is zero, and the count
is reset on any non-continuing byte. -/
def readByte1 (s : DecoderState) (newData0 : Nat) : DecoderState × Option Nat :=
  let newData := newData0 % 256
  let buf := Function.update s.RX_buffer s.RX_ind newData
  let ind1 := (s.RX_ind + 1) % SIZE_T_MOD
  let ind2 := if newData == NEX_END_TRANSMISSION_VALUE && ind1 == 1 then ind1 - 1 else ind1
  if newData == NEX_END_TRANSMISSION_VALUE && decide (ind2 > 1) then
    let inTerminator :=
      if buf 0 == NEX_RET_NUMBER_HEAD then decide (ind2 ≥ 6)
      else (buf (ind2 - 2) == NEX_END_TRANSMISSION_VALUE) != (s.endTransCnt == 0)
    if inTerminator then
      let cnt := (s.endTransCnt + 1) % 256
      if cnt == NEX_END_TRANSMISSION_LENGTH then
        ({ RX_buffer := buf, RX_ind := 0, endTransCnt := 0 }, some ind2)
      else ({ RX_buffer := buf, RX_ind := ind2, endTransCnt := cnt }, none)
    else ({ RX_buffer := buf, RX_ind := ind2, endTransCnt := 0 }, none)
  else ({ RX_buffer := buf, RX_ind := ind2, endTransCnt := 0 }, none)

/-- The `while(m_nexSerial->available())` loop of `readSerialData`: feed
bytes one at a time until a frame completes (the C code then parses and
returns immediately, leaving the remaining bytes buffered) or the input
is exhausted.  Returns (decoder state, completed frame length, leftover
input). -/
def readSerialRun (step : DecoderState → Nat → DecoderState × Option Nat) :
    DecoderState → List Nat → DecoderState × Option Nat × List Nat
  | s, [] => (s, none, [])
  | s, b :: rest =>
      match step s b with
      | (s', some len) => (s', some len, rest)
      | (s', none) => readSerialRun step s' rest

/-- `readSerialData` of the later revision (`part_001`), up to and
including frame completion (parsing is applied separately). -/
def readSerialData1 (s : DecoderState) (input : List Nat) :
    DecoderState × Option Nat × List Nat :=
  readSerialRun readByte1 s input

/-- `readSerialData` of the older revision (`part_000`). -/
def readSerialData0 (s : DecoderState) (input : List Nat) :
    DecoderState × Option Nat × List Nat :=
  readSerialRun readByte0 s input

/-- Which global (unsolicited-event) callbacks are registered non-null. -/
structure Globals where
  nextionStartupCallback : Bool
  currentPageIdCallback : Bool
  touchCoordinateCallback : Bool
  touchEventInSleepModeCallback : Bool
  automaticSleepCallback : Bool
  automaticWakeUpCallback : Bool
  nextionReadyCallback : Bool
  startSdUpgradeCallback : Bool
deriving DecidableEq, Repr

/-- Observable deliveries made by one run of `parseReceivedMessage`.
`strEv lo hi` records a string delivery drawn from buffer indices
`[lo, hi)` (for the older revision `hi` is `lo` plus the length argument
passed to the callback; for the later revision it is the loop's exclusive
bound).  `logBadEv` is the `dbSerial` log line of the default case. -/
inductive Ev where
  | startupEv
  | failEv (code : Nat)
  | succEv
  | numEv (n : Int)
  | strEv (lo hi : Nat)
  | touchEv (pid cid evt : Nat)
  | pageIdEv (pid : Nat)
  | coordEv (x y : Int) (evt : Nat)
  | coordSleepEv (x y : Int) (evt : Nat)
  | sleepEv
  | wakeEv
  | readyEv
  | sdUpgradeEv
  | logBadEv (code : Nat)
deriving DecidableEq, Repr

/-- Result of one dispatch: emitted deliveries (in call order) and the
updated queue and store. -/
structure ParseResult where
  events : List Ev
  cmdQ : NexEventQueue
  respQ : NexResponseQueue

/-- `Nextion::parseReceivedMessage`, older revision (`part_000`).
`buf` is `RX_buffer`, `RX_ind_old` the snapshotted frame length.  All
buffer reads are reduced `% 256` (the array holds `byte`s). -/
def parse000 (g : Globals) (buf : Nat → Nat) (RX_ind_old : Nat)
    (cmdQ : NexEventQueue) (respQ : NexResponseQueue) : ParseResult :=
  let b : Nat → Nat := fun i => buf i % 256
  if b 0 == NEX_RET_EVENT_NEXTION_STARTUP then
    if b 1 == 0x00 && b 2 == 0x00 && b 3 == 0xFF && b 4 == 0xFF && b 5 == 0xFF then
      ⟨if g.nextionStartupCallback then [.startupEv] else [], cmdQ, respQ⟩
    else if b 1 == 0xFF && b 2 == 0xFF && b 3 == 0xFF then
      if cmdQ.isEmpty then ⟨[], cmdQ, respQ⟩
      else
        let event := (cmdQ.dequeue).1
        let q2 := (cmdQ.dequeue).2
        ⟨if event.failCB then [.failEv (b 0)] else [], q2, respQ⟩
    else ⟨[], cmdQ, respQ⟩
  else if b 0 == NEX_RET_CMD_FINISHED_OK then
    if cmdQ.isEmpty then ⟨[], cmdQ, respQ⟩
    else
      let event := (cmdQ.dequeue).1
      let q2 := (cmdQ.dequeue).2
      let evs := if b 0 != event.successReturnCode && event.failCB
                 then [.failEv (b 0)] else []
      ⟨evs, q2, (respQ.storeData event RX_ind_old buf).2⟩
  else if b 0 == NEX_RET_SERIAL_BUFFER_OVERFLOW then
    ⟨[], cmdQ, respQ⟩
  else if b 0 == NEX_RET_EVENT_TOUCH_HEAD then
    if b 4 == 0xFF && b 5 == 0xFF && b 6 == 0xFF then
      ⟨[.touchEv (b 1) (b 2) (b 3)], cmdQ, respQ⟩
    else ⟨[], cmdQ, respQ⟩
  else if b 0 == NEX_RET_CURRENT_PAGE_ID_HEAD then
    if b 2 == 0xFF && b 3 == 0xFF && b 4 == 0xFF then
      ⟨if g.currentPageIdCallback then [.pageIdEv (b 1)] else [], cmdQ, respQ⟩
    else ⟨[], cmdQ, respQ⟩
  else if b 0 == NEX_RET_STRING_HEAD then
    if cmdQ.isEmpty then ⟨[], cmdQ, respQ⟩
    else
      let event := (cmdQ.dequeue).1
      let q2 := (cmdQ.dequeue).2
      if b 0 != event.successReturnCode && event.failCB then
        ⟨[.failEv (b 0)], q2, respQ⟩
      else
        let evs := if event.strCB then [.strEv 1 (1 + sizeSub RX_ind_old 3)] else []
        ⟨evs, q2, (respQ.storeData event RX_ind_old buf).2⟩
  else if b 0 == NEX_RET_NUMBER_HEAD then
    if cmdQ.isEmpty then ⟨[], cmdQ, respQ⟩
    else
      let event := (cmdQ.dequeue).1
      let q2 := (cmdQ.dequeue).2
      if b 0 != event.successReturnCode && event.failCB then
        ⟨[.failEv (b 0)], q2, respQ⟩
      else
        let number := toInt32 (b 4 * 2 ^ 24 + b 3 * 2 ^ 16 + b 2 * 2 ^ 8 + b 1)
        let evs := if event.numCB then [.numEv number] else []
        ⟨evs, q2, (respQ.storeData event RX_ind_old buf).2⟩
  else if b 0 == NEX_RET_EVENT_POSITION_HEAD || b 0 == NEX_RET_EVENT_SLEEP_POSITION_HEAD then
    if b 6 == 0xFF && b 7 == 0xFF && b 8 == 0xFF then
      if b 0 == NEX_RET_EVENT_POSITION_HEAD && g.touchCoordinateCallback then
        ⟨[.coordEv (toInt16 (b 2 * 2 ^ 8 + b 1)) (toInt16 (b 4 * 2 ^ 8 + b 3)) (b 5)],
         cmdQ, respQ⟩
      else if b 0 == NEX_RET_EVENT_SLEEP_POSITION_HEAD && g.touchCoordinateCallback then
        -- source checks touchCoordinateCallback but calls touchEventInSleepModeCallback
        ⟨[.coordSleepEv (toInt16 (b 2 * 2 ^ 8 + b 1)) (toInt16 (b 4 * 2 ^ 8 + b 3)) (b 5)],
         cmdQ, respQ⟩
      else ⟨[], cmdQ, respQ⟩
    else ⟨[], cmdQ, respQ⟩
  else if b 0 == NEX_RET_AUTOMATIC_SLEEP || b 0 == NEX_RET_AUTOMATIC_WAKE_UP then
    if b 1 == 0xFF && b 2 == 0xFF && b 3 == 0xFF then
      if b 0 == NEX_RET_AUTOMATIC_SLEEP && g.automaticSleepCallback then
        ⟨[.sleepEv], cmdQ, respQ⟩
      else if b 0 == NEX_RET_AUTOMATIC_WAKE_UP && g.automaticWakeUpCallback then
        ⟨[.wakeEv], cmdQ, respQ⟩
      else ⟨[], cmdQ, respQ⟩
    else ⟨[], cmdQ, respQ⟩
  else if b 0 == NEX_RET_EVENT_NEXTION_READY then
    ⟨if g.nextionReadyCallback then [.readyEv] else [], cmdQ, respQ⟩
  else if b 0 == NEX_RET_START_SD_UPGRADE then
    ⟨if g.startSdUpgradeCallback then [.sdUpgradeEv] else [], cmdQ, respQ⟩
  else
    if cmdQ.isEmpty then ⟨[.logBadEv (b 0)], cmdQ, respQ⟩
    else
      let event := (cmdQ.dequeue).1
      let q2 := (cmdQ.dequeue).2
      if event.cmdType == CommandTypes.CT_stringHeadless then
        let evs := if event.strCB then [.strEv 0 (sizeSub RX_ind_old 2)] else []
        ⟨evs ++ [.logBadEv (b 0)], q2, (respQ.storeData event RX_ind_old buf).2⟩
      else if event.failCB then
        ⟨[.failEv (b 0), .logBadEv (b 0)], q2, respQ⟩
      else ⟨[.logBadEv (b 0)], q2, respQ⟩

/-- `Nextion::parseReceivedMessage`, later revision (`part_001`): adds a
success callback on matching acknowledgement codes, stores response data
before invoking string callbacks, and builds the delivered string from
indices `1 ≤ i < RX_ind_old - 3` (head case) or `0 ≤ i < RX_ind_old - 3`
(headless case). -/
def parse001 (g : Globals) (buf : Nat → Nat) (RX_ind_old : Nat)
    (cmdQ : NexEventQueue) (respQ : NexResponseQueue) : ParseResult :=
  let b : Nat → Nat := fun i => buf i % 256
  if b 0 == NEX_RET_EVENT_NEXTION_STARTUP then
    if b 1 == 0x00 && b 2 == 0x00 && b 3 == 0xFF && b 4 == 0xFF && b 5 == 0xFF then
      ⟨if g.nextionStartupCallback then [.startupEv] else [], cmdQ, respQ⟩
    else if b 1 == 0xFF && b 2 == 0xFF && b 3 == 0xFF then
      if cmdQ.isEmpty then ⟨[], cmdQ, respQ⟩
      else
        let event := (cmdQ.dequeue).1
        let q2 := (cmdQ.dequeue).2
        ⟨if event.failCB then [.failEv (b 0)] else [], q2, respQ⟩
    else ⟨[], cmdQ, respQ⟩
  else if b 0 == NEX_RET_CMD_FINISHED_OK then
    if cmdQ.isEmpty then ⟨[], cmdQ, respQ⟩
    else
      let event := (cmdQ.dequeue).1
      let q2 := (cmdQ.dequeue).2
      let evs := if b 0 != event.successReturnCode && event.failCB then [Ev.failEv (b 0)]
                 else if b 0 == event.successReturnCode && event.succCB then [Ev.succEv]
                 else []
      ⟨evs, q2, (respQ.storeData event RX_ind_old buf).2⟩
  else if b 0 == NEX_RET_SERIAL_BUFFER_OVERFLOW then
    ⟨[], cmdQ, respQ⟩
  else if b 0 == NEX_RET_EVENT_TOUCH_HEAD then
    if b 4 == 0xFF && b 5 == 0xFF && b 6 == 0xFF then
      ⟨[.touchEv (b 1) (b 2) (b 3)], cmdQ, respQ⟩
    else ⟨[], cmdQ, respQ⟩
  else if b 0 == NEX_RET_CURRENT_PAGE_ID_HEAD then
    if b 2 == 0xFF && b 3 == 0xFF && b 4 == 0xFF then
      ⟨if g.currentPageIdCallback then [.pageIdEv (b 1)] else [], cmdQ, respQ⟩
    else ⟨[], cmdQ, respQ⟩
  else if b 0 == NEX_RET_STRING_HEAD then
    if cmdQ.isEmpty then ⟨[], cmdQ, respQ⟩
    else
      let event := (cmdQ.dequeue).1
      let q2 := (cmdQ.dequeue).2
      if b 0 != event.successReturnCode && event.failCB then
        ⟨[.failEv (b 0)], q2, respQ⟩
      else
        let evs := if event.strCB then [.strEv 1 (sizeSub RX_ind_old 3)] else []
        ⟨evs, q2, (respQ.storeData event RX_ind_old buf).2⟩
  else if b 0 == NEX_RET_NUMBER_HEAD then
    if cmdQ.isEmpty then ⟨[], cmdQ, respQ⟩
    else
      let event := (cmdQ.dequeue).1
      let q2 := (cmdQ.dequeue).2
      if b 0 != event.successReturnCode && event.failCB then
        ⟨[.failEv (b 0)], q2, respQ⟩
      else
        let number := toInt32 (b 4 * 2 ^ 24 + b 3 * 2 ^ 16 + b 2 * 2 ^ 8 + b 1)
        let evs := if event.numCB then [.numEv number] else []
        ⟨evs, q2, (respQ.storeData event RX_ind_old buf).2⟩
  else if b 0 == NEX_RET_EVENT_POSITION_HEAD || b 0 == NEX_RET_EVENT_SLEEP_POSITION_HEAD then
    if b 6 == 0xFF && b 7 == 0xFF && b 8 == 0xFF then
      if b 0 == NEX_RET_EVENT_POSITION_HEAD && g.touchCoordinateCallback then
        ⟨[.coordEv (toInt16 (b 2 * 2 ^ 8 + b 1)) (toInt16 (b 4 * 2 ^ 8 + b 3)) (b 5)],
         cmdQ, respQ⟩
      else if b 0 == NEX_RET_EVENT_SLEEP_POSITION_HEAD && g.touchCoordinateCallback then
        ⟨[.coordSleepEv (toInt16 (b 2 * 2 ^ 8 + b 1)) (toInt16 (b 4 * 2 ^ 8 + b 3)) (b 5)],
         cmdQ, respQ⟩
      else ⟨[], cmdQ, respQ⟩
    else ⟨[], cmdQ, respQ⟩
  else if b 0 == NEX_RET_AUTOMATIC_SLEEP || b 0 == NEX_RET_AUTOMATIC_WAKE_UP then
    if b 1 == 0xFF && b 2 == 0xFF && b 3 == 0xFF then
      if b 0 == NEX_RET_AUTOMATIC_SLEEP && g.automaticSleepCallback then
        ⟨[.sleepEv], cmdQ, respQ⟩
      else if b 0 == NEX_RET_AUTOMATIC_WAKE_UP && g.automaticWakeUpCallback then
        ⟨[.wakeEv], cmdQ, respQ⟩
      else ⟨[], cmdQ, respQ⟩
    else ⟨[], cmdQ, respQ⟩
  else if b 0 == NEX_RET_EVENT_NEXTION_READY then
    ⟨if g.nextionReadyCallback then [.readyEv] else [], cmdQ, respQ⟩
  else if b 0 == NEX_RET_START_SD_UPGRADE then
    ⟨if g.startSdUpgradeCallback then [.sdUpgradeEv] else [], cmdQ, respQ⟩
  else
    if cmdQ.isEmpty then ⟨[.logBadEv (b 0)], cmdQ, respQ⟩
    else
      let event := (cmdQ.dequeue).1
      let q2 := (cmdQ.dequeue).2
      if event.cmdType == CommandTypes.CT_stringHeadless then
        let evs := if event.strCB then [.strEv 0 (sizeSub RX_ind_old 3)] else []
        ⟨evs ++ [.logBadEv (b 0)], q2, (respQ.storeData event RX_ind_old buf).2⟩
      else if b 0 == event.successReturnCode && event.succCB then
        ⟨[.succEv, .logBadEv (b 0)], q2, respQ⟩
      else if event.failCB then
        ⟨[.failEv (b 0), .logBadEv (b 0)], q2, respQ⟩
      else ⟨[.logBadEv (b 0)], q2, respQ⟩

/-- The command built by `Nextion::prepRetNumber` (older revision):
`response` is set to `nullptr` (the non-blocking path cannot reach the
store).  `succCB` does not exist in this revision's struct. -/
def prepRetNumberEvent (returnCode : Nat) (retCallback failCallback : Bool)
    (now timeout : Nat) : NexQueuedCommand :=
  { successReturnCode := returnCode % 256
    getCB := retCallback
    succCB := false
    failCB := failCallback
    expiration_time := (now + timeout) % ULONG_MOD
    cmdType := .CT_number
    response := none }

/-- `Nextion::prepRetNumber`: build the event and enqueue it. -/
def prepRetNumber (returnCode : Nat) (retCallback failCallback : Bool)
    (timeout : Nat) (now : Nat) (cmdQ : NexEventQueue) : Bool × NexEventQueue × Nat :=
  cmdQ.enqueue (prepRetNumberEvent returnCode retCallback failCallback now timeout)

/-- The command built by `Nextion::prepRetString` (older revision). -/
def prepRetStringEvent (returnCode : Nat) (retCallback failCallback : Bool)
    (start_flag : Bool) (now timeout : Nat) : NexQueuedCommand :=
  { successReturnCode := returnCode % 256
    getCB := retCallback
    succCB := false
    failCB := failCallback
    expiration_time := (now + timeout) % ULONG_MOD
    cmdType := if start_flag then .CT_stringHead else .CT_stringHeadless
    response := none }

/-- `Nextion::prepRetString`: build the event and enqueue it. -/
def prepRetString (returnCode : Nat) (retCallback failCallback : Bool)
    (start_flag : Bool) (timeout : Nat) (now : Nat) (cmdQ : NexEventQueue) :
    Bool × NexEventQueue × Nat :=
  cmdQ.enqueue (prepRetStringEvent returnCode retCallback failCallback start_flag now timeout)

/-- The command built by `Nextion::prepRetCode` (older revision); the
union member `numCB` is set to `nullptr`. -/
def prepRetCodeEvent (returnCode : Nat) (failCallback : Bool)
    (now timeout : Nat) : NexQueuedCommand :=
  { successReturnCode := returnCode % 256
    getCB := false
    succCB := false
    failCB := failCallback
    expiration_time := (now + timeout) % ULONG_MOD
    cmdType := .CT_command
    response := none }

/-- `Nextion::prepRetCode`: build the event and enqueue it. -/
def prepRetCode (returnCode : Nat) (failCallback : Bool)
    (timeout : Nat) (now : Nat) (cmdQ : NexEventQueue) : Bool × NexEventQueue × Nat :=
  cmdQ.enqueue (prepRetCodeEvent returnCode failCallback now timeout)

/-- Whole-engine state threaded through `nexLoop` and the blocking
adapter: decoder, queues, the bytes still waiting on the serial line,
the current `millis()` value, and the deliveries made so far. -/
structure EngineState where
  dec : DecoderState
  cmdQ : NexEventQueue
  respQ : NexResponseQueue
  input : List Nat
  now : Nat
  events : List Ev

/-- One call of the older revision's `readSerialData` with synchronous
dispatch: consume input until a frame completes, parse it, stop. -/
def readSerialStep0 (g : Globals) (st : EngineState) : EngineState :=
  match readSerialData0 st.dec st.input with
  | (dec', none, rest) => { st with dec := dec', input := rest }
  | (dec', some len, rest) =>
      let pr := parse000 g dec'.RX_buffer len st.cmdQ st.respQ
      { st with dec := dec', input := rest, cmdQ := pr.cmdQ, respQ := pr.respQ,
                events := st.events ++ pr.events }

/-- `Nextion::nexLoop` (older revision): read/dispatch serial data, then
sweep expired commands once. -/
def nexLoop0 (g : Globals) (st : EngineState) : EngineState :=
  let st1 := readSerialStep0 g st
  { st1 with cmdQ := (st1.cmdQ.clearExpiredCommands st1.now).2 }

/-- `Nextion::prepRetNumberBlocking`: reserve a response slot, build the
event pointing at it (no callbacks), enqueue with a save spot.  Returns
(enqueue result, reserved slot, sequence index, new state). -/
def prepRetNumberBlocking (timeout : Nat) (st : EngineState) :
    Bool × Fin RX_2ND_ARR_SIZE × Nat × EngineState :=
  let (slot, store') := st.respQ.getResponseSlot
  let event : NexQueuedCommand :=
    { successReturnCode := NEX_RET_NUMBER_HEAD
      getCB := false
      succCB := false
      failCB := false
      expiration_time := (st.now + timeout) % ULONG_MOD
      cmdType := .CT_number
      response := some slot }
  let (ret, q', spot) := st.cmdQ.enqueue event
  (ret, slot, spot, { st with respQ := store', cmdQ := q' })

/-- The `while (!cmdQ.passedIndex(&saveSpot)) { nexLoop(); yield(); }`
busy-wait, with explicit fuel so the embedding stays total. -/
def blockUntilPassed (g : Globals) (saveSpot : Nat) :
    Nat → EngineState → EngineState
  | 0, st => st
  | fuel + 1, st =>
      if st.cmdQ.passedIndex (some saveSpot) then st
      else blockUntilPassed g saveSpot fuel (nexLoop0 g st)

/-- Outcome of `Nextion::recvRetNumber(uint32_t*, size_t)`: the returned
boolean, the value written through the pointer (`none` = nothing was
written), and the engine state afterwards. -/
structure RecvNumberResult where
  ret : Bool
  written : Option Nat
  st : EngineState

/-- `Nextion::recvRetNumber(uint32_t *number, size_t timeout)`, older
revision.  `numberIsNull` models `number == nullptr`.  On the non-null
path: issue the blocking prep, busy-wait, then read the reserved slot
back (its pointer is never null, as `getResponseSlot` always returns a
slot) and validate the head byte and length. -/
def recvRetNumber (g : Globals) (fuel : Nat) (numberIsNull : Bool)
    (timeout : Nat) (st : EngineState) : RecvNumberResult :=
  if numberIsNull then ⟨true, none, st⟩
  else
    let (r1, slot, spot, st1) := prepRetNumberBlocking timeout st
    let st2 := blockUntilPassed g spot fuel st1
    let resp := st2.respQ.respQ slot
    if resp.RX_buf 0 % 256 == NEX_RET_NUMBER_HEAD && resp.RX_ind == 8 then
      let v := (resp.RX_buf 4 % 256) * 2 ^ 24 + (resp.RX_buf 3 % 256) * 2 ^ 16 +
               (resp.RX_buf 2 % 256) * 2 ^ 8 + resp.RX_buf 1 % 256
      ⟨r1, some v, st2⟩
    else ⟨false, none, st2⟩

/-! ### Concrete fixtures used by the claim theorems -/

/-- A pending plain-acknowledgement command (expired deadline 0, failure
callback registered, no response slot). -/
def cmdA : NexQueuedCommand :=
  { successReturnCode := 1, getCB := false, succCB := false, failCB := true,
    expiration_time := 0, cmdType := .CT_command, response := none }

/-- A pending numeric command (number callback registered). -/
def cmdB : NexQueuedCommand :=
  { successReturnCode := 0x71, getCB := true, succCB := false, failCB := false,
    expiration_time := 50, cmdType := .CT_number, response := none }

/-- A command queue holding `CMD_QUEUE_SIZE` live entries (full):
`Qread = 0`, `Qwrite = 8`, every slot occupied by an unconsumed `cmdA`. -/
def qFull : NexEventQueue := { eventQ := fun _ => cmdA, Qread := 0, Qwrite := 8 }

/-- A response store whose `RX_2ND_ARR_SIZE` reservations are all live:
`Qwrite = 8`. -/
def storeFull : NexResponseQueue := { respQ := fun _ => NexResponses.init, Qwrite := 8 }

/-- A fresh, empty response store. -/
def storeEmpty : NexResponseQueue := { respQ := fun _ => NexResponses.init, Qwrite := 0 }

/-- No global unsolicited-event handlers registered. -/
def gNone : Globals :=
  { nextionStartupCallback := false, currentPageIdCallback := false,
    touchCoordinateCallback := false, touchEventInSleepModeCallback := false,
    automaticSleepCallback := false, automaticWakeUpCallback := false,
    nextionReadyCallback := false, startSdUpgradeCallback := false }

/-- A queue holding exactly one pending command, at the head. -/
def singletonQ (cmd : NexQueuedCommand) : NexEventQueue :=
  { eventQ := fun _ => cmd, Qread := 0, Qwrite := 1 }

/-- The numeric-reply boundary frame `0x71 FF 00 00 00 FF FF FF`. -/
def bufNum : Nat → Nat := fun i =>
  List.getD [0x71, 0xFF, 0x00, 0x00, 0x00, 0xFF, 0xFF, 0xFF] i 0

/-- An unrecognized frame `0x50 FF FF FF`. -/
def bufBad : Nat → Nat := fun i => List.getD [0x50, 0xFF, 0xFF, 0xFF] i 0

/-- A pending command expecting acknowledgement code 1, with a failure
callback and a reserved response slot (slot 0). -/
def cmdC4 : NexQueuedCommand :=
  { successReturnCode := 1, getCB := false, succCB := false, failCB := true,
    expiration_time := 0, cmdType := .CT_number, response := some (ridx 0) }

/-- Leading frame bytes recognized by `parseReceivedMessage`'s switch. -/
def recognizedHead (b : Nat) : Bool :=
  b == 0x00 || b == 0x01 || b == 0x24 || b == 0x65 || b == 0x66 || b == 0x70 ||
  b == 0x71 || b == 0x67 || b == 0x68 || b == 0x86 || b == 0x87 || b == 0x88 ||
  b == 0x89

/-- An empty queue whose cursors sit at the top of the `size_t` range,
reached after `SIZE_T_MOD - 1` balanced enqueue/dequeue pairs. -/
def qC2 : NexEventQueue :=
  { eventQ := fun _ => cmdA, Qread := SIZE_T_MOD - 1, Qwrite := SIZE_T_MOD - 1 }

/-- C1: evaluation at the failing input.  With the Command Queue full
(8 live entries, oldest at slot 0), `enqueue` overwrites slot 0 with the
new command — corrupting the oldest unconsumed entry — and still returns
`true` (no failure is reported to the caller, contradicting the header's
documented `false` on circular-buffer overflow).  Likewise, with all
store reservations live, `getResponseSlot` simply hands out slot 0 again;
it has no failure channel at all. -/
theorem C1_full_enqueue_corrupts_and_reports_success :
    (qFull.enqueue cmdB).1 = true ∧
    (qFull.enqueue cmdB).2.1.eventQ (qidx 0) = cmdB ∧
    cmdB ≠ cmdA ∧
    (storeFull.getResponseSlot).1 = ridx 0 := by
  refine ⟨by decide, by decide, by decide, by decide⟩

/-- C2 counterexample: enqueue one command into `qC2`, receiving the
issue-sequence index `SIZE_T_MOD - 1`; dequeue it (the dequeue cursor has
now advanced past that index, wrapping to 0).  `passedIndex` nevertheless
answers `false`: the comparison `Qread > *saveSpot` is raw magnitude, and
the special "wrap" branch (`Qwrite < CMD_QUEUE_SIZE && Qread >
CMD_QUEUE_SIZE`) does not apply, so the wrapped counter defeats it. -/
theorem C2_counterexample_wraparound :
    (qC2.enqueue cmdB).2.2 = SIZE_T_MOD - 1 ∧
    ((qC2.enqueue cmdB).2.1.dequeue).1 = cmdB ∧
    ((qC2.enqueue cmdB).2.1.dequeue).2.passedIndex (some ((qC2.enqueue cmdB).2.2))
      = false := by
  refine ⟨by decide, by decide, by decide⟩

/-- C2 amended: as long as the counters have not wrapped around the
`size_t` range (so the stored values are the true monotone counts,
`Qread ≤ Qwrite`), `passedIndex s` returns `true` exactly when the
dequeue cursor has advanced past the issue index `s`; the comparison is
raw magnitude, not modular, and the previous counterexample shows it
gives the wrong answer once the counter wraps. -/
theorem C2_passedIndex_no_wrap (q : NexEventQueue) (s : Nat)
    (h : q.Qread ≤ q.Qwrite) :
    q.passedIndex (some s) = decide (s < q.Qread) := by
  unfold NexEventQueue.passedIndex
  have hwrap : ¬(q.Qwrite < CMD_QUEUE_SIZE ∧ q.Qread > CMD_QUEUE_SIZE) := by
    rintro ⟨h1, h2⟩
    unfold CMD_QUEUE_SIZE at h1 h2
    omega
  simp only [hwrap, if_false]
  by_cases hlt : q.Qread > s
  · simp [hlt]
  · simp [hlt]

/-- C2 witness: the amended theorem applied to a concrete mid-stream
queue state (`Qread = 3`, `Qwrite = 5`): index 2 has been passed, and
`passedIndex` reports it. -/
theorem C2_witness :
    NexEventQueue.passedIndex { eventQ := fun _ => cmdA, Qread := 3, Qwrite := 5 }
      (some 2) = decide (2 < 3) :=
  C2_passedIndex_no_wrap { eventQ := fun _ => cmdA, Qread := 3, Qwrite := 5 } 2
    (by decide)

/-- C8 counterexample: a terminator byte arriving first is NOT retained.
After feeding `0xFF` to the fresh decoder the write offset is rolled back
to 0 (the claim's reading would leave it at 1), and feeding the full
stream `FF 70 00 FF FF FF` delivers a 5-byte frame whose first byte is
`0x70` — the leading `0xFF` was overwritten and appears in no frame. -/
theorem C8_counterexample_leading_ff_dropped :
    (readByte1 DecoderState.init 0xFF).1.RX_ind = 0 ∧
    (readSerialData1 DecoderState.init [0xFF, 0x70, 0x00, 0xFF, 0xFF, 0xFF]).2.1
      = some 5 ∧
    (readSerialData1 DecoderState.init [0xFF, 0x70, 0x00, 0xFF, 0xFF, 0xFF]).1.RX_buffer 0
      = 0x70 := by
  refine ⟨by decide, by decide, by decide⟩

/-- C8 amended: a terminator byte (`0xFF`) arriving at write offset 0 is
not counted as a terminator, but it is *discarded*, not kept: both
decoder revisions write it into position 0 and then roll the write
offset back to 0, so the next byte overwrites it and it never appears in
a delivered frame; the run-length count is not incremented (the later
revision resets it to 0, the older one leaves it untouched). -/
theorem C8_leading_terminator_discarded (s : DecoderState) (h : s.RX_ind = 0) :
    readByte1 s 0xFF =
      ({ RX_buffer := Function.update s.RX_buffer 0 0xFF, RX_ind := 0,
         endTransCnt := 0 }, none) ∧
    readByte0 s 0xFF =
      ({ RX_buffer := Function.update s.RX_buffer 0 0xFF, RX_ind := 0,
         endTransCnt := s.endTransCnt }, none) := by
  obtain ⟨buf, ind, cnt⟩ := s
  simp only at h
  subst h
  exact ⟨rfl, rfl⟩

/-- C8 witness: the amended theorem applied to the fresh decoder state. -/
theorem C8_witness :
    readByte1 DecoderState.init 0xFF =
      ({ RX_buffer := Function.update DecoderState.init.RX_buffer 0 0xFF, RX_ind := 0,
         endTransCnt := 0 }, none) :=
  (C8_leading_terminator_discarded DecoderState.init rfl).1

/-- C9: `recvRetNumber` called with a null `uint32_t*` logs and returns
`true` immediately: no command is issued or enqueued (the whole engine
state — command queue, response store, decoder, pending input — is
returned untouched) and nothing is written through the pointer. -/
theorem C9_null_pointer_returns_true (g : Globals) (fuel timeout : Nat)
    (st : EngineState) :
    recvRetNumber g fuel true timeout st = ⟨true, none, st⟩ := rfl

/-- C7: the Expiration Sweeper.  (1) one call reports a removal exactly
when the queue is non-empty and the head's deadline has passed;
(2) when it reports nothing, the queue is untouched; (3) when it removes,
it removes exactly the head (read cursor advances by one, nothing else
changes) — so at most one command per tick; (4) if the queue holds
exactly one live command and its deadline has passed, that command is
removed by this tick, and every later tick, at any time, is a no-op. -/
theorem C7_sweeper_at_most_one (q : NexEventQueue) (now : Nat) :
    ((q.clearExpiredCommands now).1
        = (!q.isEmpty && decide (q.peek.expiration_time ≤ now))) ∧
    ((q.clearExpiredCommands now).1 = false → (q.clearExpiredCommands now).2 = q) ∧
    ((q.clearExpiredCommands now).1 = true →
       (q.clearExpiredCommands now).2
         = { eventQ := q.eventQ, Qread := (q.Qread + 1) % SIZE_T_MOD,
             Qwrite := q.Qwrite }) ∧
    (q.Qwrite = (q.Qread + 1) % SIZE_T_MOD →
     q.peek.expiration_time ≤ now →
       (q.clearExpiredCommands now).1 = true ∧
       (q.clearExpiredCommands now).2.isEmpty = true ∧
       ∀ later : Nat,
         ((q.clearExpiredCommands now).2.clearExpiredCommands later)
           = (false, (q.clearExpiredCommands now).2)) := by
  have hne : ∀ x : Nat, (x + 1) % SIZE_T_MOD ≠ x := by
    intro x hx
    unfold SIZE_T_MOD at hx
    rcases Nat.lt_or_ge (x + 1) (2 ^ 32) with hlt | hge
    · omega
    · have := Nat.mod_lt (x + 1) (show 0 < 2 ^ 32 by norm_num)
      omega
  unfold NexEventQueue.clearExpiredCommands
  by_cases he : q.isEmpty
  · have hq : q.Qread = q.Qwrite := by
      simpa [NexEventQueue.isEmpty] using he
    refine ⟨by simp [he], by intro _; simp [he], by simp [he], ?_⟩
    intro hw _
    exact absurd (hq.trans hw).symm (hne q.Qread)
  · by_cases hexp : q.peek.expiration_time ≤ now
    · refine ⟨by simp [he, hexp], by simp [he, hexp], ?_, ?_⟩
      · intro _
        simp [he, hexp, NexEventQueue.dequeue]
      · intro hw _
        have hres : (q.dequeue).2.isEmpty = true := by
          simp [NexEventQueue.dequeue, NexEventQueue.isEmpty, hw]
        refine ⟨by simp [he, hexp], by simpa [he, hexp] using hres, ?_⟩
        intro later
        simp [he, hexp, hres]
    · refine ⟨by simp [he, hexp], by intro _; simp [he, hexp],
              by simp [he, hexp], ?_⟩
      intro _ hcon
      exact absurd hcon hexp

/-- C7 witness: a queue holding exactly one command whose deadline (0)
has passed at tick time 5: the sweep removes it, the queue is empty, and
a later sweep at time 6 is a no-op. -/
theorem C7_witness :
    (NexEventQueue.clearExpiredCommands
        { eventQ := fun _ => cmdA, Qread := 0, Qwrite := 1 } 5).1 = true ∧
    (NexEventQueue.clearExpiredCommands
        { eventQ := fun _ => cmdA, Qread := 0, Qwrite := 1 } 5).2.isEmpty = true ∧
    ((NexEventQueue.clearExpiredCommands
        { eventQ := fun _ => cmdA, Qread := 0, Qwrite := 1 } 5).2.clearExpiredCommands 6)
      = (false, (NexEventQueue.clearExpiredCommands
          { eventQ := fun _ => cmdA, Qread := 0, Qwrite := 1 } 5).2) := by
  have h := (C7_sweeper_at_most_one
      { eventQ := fun _ => cmdA, Qread := 0, Qwrite := 1 } 5).2.2.2
      (by decide) (by decide)
  exact ⟨h.1, h.2.1, h.2.2 6⟩

/-- C3: feeding exactly `0x71 FF 00 00 00 FF FF FF` to the later
revision's decoder from the fresh state completes exactly one frame —
of the full 8 bytes, consuming the whole input, so no early split at the
payload byte `0xFF` — and dispatching it against a queue whose head is a
pending numeric command (kind `CT_number`, expected code `0x71`, number
callback registered) delivers exactly one number callback with value
`0x000000FF = 255` and consumes that command (the queue is left empty). -/
theorem C3_numeric_terminator_payload (g : Globals) (cmd : NexQueuedCommand)
    (store : NexResponseQueue)
    (hk : cmd.cmdType = CommandTypes.CT_number)
    (hc : cmd.successReturnCode = 0x71)
    (hn : cmd.getCB = true) :
    (readSerialData1 DecoderState.init [0x71, 0xFF, 0x00, 0x00, 0x00, 0xFF, 0xFF, 0xFF]).2.1
      = some 8 ∧
    (readSerialData1 DecoderState.init [0x71, 0xFF, 0x00, 0x00, 0x00, 0xFF, 0xFF, 0xFF]).2.2
      = [] ∧
    (parse001 g
        (readSerialData1 DecoderState.init
          [0x71, 0xFF, 0x00, 0x00, 0x00, 0xFF, 0xFF, 0xFF]).1.RX_buffer
        8 (singletonQ cmd) store).events = [.numEv 255] ∧
    (parse001 g
        (readSerialData1 DecoderState.init
          [0x71, 0xFF, 0x00, 0x00, 0x00, 0xFF, 0xFF, 0xFF]).1.RX_buffer
        8 (singletonQ cmd) store).cmdQ.isEmpty = true := by
  obtain ⟨src, gcb, scb, fcb, exp, ct, resp⟩ := cmd
  simp only at hk hc hn
  subst hk; subst hc; subst hn
  exact ⟨by decide, by decide, rfl, rfl⟩

/-- C3 witness: the scenario run with the concrete numeric command
`cmdB`, no registered globals and an empty store. -/
theorem C3_witness :
    (parse001 gNone
        (readSerialData1 DecoderState.init
          [0x71, 0xFF, 0x00, 0x00, 0x00, 0xFF, 0xFF, 0xFF]).1.RX_buffer
        8 (singletonQ cmdB) storeEmpty).events = [.numEv 255] ∧
    (parse001 gNone
        (readSerialData1 DecoderState.init
          [0x71, 0xFF, 0x00, 0x00, 0x00, 0xFF, 0xFF, 0xFF]).1.RX_buffer
        8 (singletonQ cmdB) storeEmpty).cmdQ.isEmpty = true := by
  have h := C3_numeric_terminator_payload gNone cmdB storeEmpty rfl rfl rfl
  exact ⟨h.2.2.1, h.2.2.2⟩

/-- C4 counterexample: the boundary numeric frame dispatched (older
revision) against a head command that has a reserved response slot
(`cmdC4.response = some slot0`) and a failure callback, but expects code
1: the failure path is taken (one failure delivery with code `0x71`),
and the response store is returned completely unchanged — the frame
bytes are NOT copied into the reserved slot, contrary to the claim that
the copy happens regardless of the delivery path. -/
theorem C4_counterexample_fail_path_skips_store :
    cmdC4.response = some (ridx 0) ∧
    (parse000 gNone bufNum 8 (singletonQ cmdC4) storeEmpty).events
      = [.failEv 0x71] ∧
    (parse000 gNone bufNum 8 (singletonQ cmdC4) storeEmpty).respQ = storeEmpty := by
  exact ⟨rfl, rfl, rfl⟩

/-- C4 amended: for command-acknowledgement frames (leading byte 0x01)
the frame is copied into the head's reserved slot regardless of whether
the failure or the success path was taken; for string (0x70) and numeric
(0x71) reply frames the copy is performed only when the failure branch
is not taken (the reply code matches the expectation, or no failure
callback is registered) — on the failure path the store is untouched. -/
theorem C4_store_copy_by_path (g : Globals) (buf : Nat → Nat) (len : Nat)
    (q : NexEventQueue) (store : NexResponseQueue) (hne : q.isEmpty = false) :
    (buf 0 % 256 = 0x01 →
       (parse000 g buf len q store).respQ
         = (store.storeData (q.dequeue).1 len buf).2) ∧
    ((buf 0 % 256 = 0x70 ∨ buf 0 % 256 = 0x71) →
     buf 0 % 256 ≠ (q.dequeue).1.successReturnCode → (q.dequeue).1.failCB = true →
       (parse000 g buf len q store).respQ = store) ∧
    ((buf 0 % 256 = 0x70 ∨ buf 0 % 256 = 0x71) →
     (buf 0 % 256 = (q.dequeue).1.successReturnCode ∨ (q.dequeue).1.failCB = false) →
       (parse000 g buf len q store).respQ
         = (store.storeData (q.dequeue).1 len buf).2) := by
  refine ⟨?_, ?_, ?_⟩
  · intro hb
    simp only [parse000, hb]
    norm_num [hne, NEX_RET_EVENT_NEXTION_STARTUP, NEX_RET_CMD_FINISHED_OK]
  · rintro (hb | hb) hm hf <;>
    · simp only [parse000, hb]
      rw [hb] at hm
      norm_num [hne, hm, hf, NEX_RET_EVENT_NEXTION_STARTUP, NEX_RET_CMD_FINISHED_OK,
        NEX_RET_SERIAL_BUFFER_OVERFLOW, NEX_RET_EVENT_TOUCH_HEAD,
        NEX_RET_CURRENT_PAGE_ID_HEAD, NEX_RET_STRING_HEAD, NEX_RET_NUMBER_HEAD]
  · rintro (hb | hb) hok <;>
    · rw [hb] at hok
      simp only [parse000, hb]
      norm_num [hne, NEX_RET_EVENT_NEXTION_STARTUP, NEX_RET_CMD_FINISHED_OK,
        NEX_RET_SERIAL_BUFFER_OVERFLOW, NEX_RET_EVENT_TOUCH_HEAD,
        NEX_RET_CURRENT_PAGE_ID_HEAD, NEX_RET_STRING_HEAD, NEX_RET_NUMBER_HEAD]
      split_ifs with hcon hcb
      · rcases hok with h | h
        · exact absurd h hcon.1
        · exact absurd hcon.2 (by simp [h])
      · rfl
      · rfl

/-- C4 witness: the amended theorem's matching-code clause at a concrete
input: the boundary frame against `cmdB` (expects `0x71`, matches), with
the store update exposed. -/
theorem C4_witness :
    (parse000 gNone bufNum 8 (singletonQ cmdB) storeEmpty).respQ
      = (storeEmpty.storeData ((singletonQ cmdB).dequeue).1 8 bufNum).2 :=
  (C4_store_copy_by_path gNone bufNum 8 (singletonQ cmdB) storeEmpty rfl).2.2
    (Or.inr rfl) (Or.inl rfl)

/-- C5 counterexample: an unrecognized leading byte (`0x50`) dispatched
(older revision) against a queue whose single pending command is NOT of
headless-string kind (`cmdA` is `CT_command`): contrary to the claim
that no pending command is consumed and the queue is left unchanged, the
head is dequeued (the queue ends empty) and its failure callback fires
with the unrecognized byte. -/
theorem C5_counterexample_nonheadless_consumed :
    (singletonQ cmdA).isEmpty = false ∧
    cmdA.cmdType ≠ CommandTypes.CT_stringHeadless ∧
    (parse000 gNone bufBad 4 (singletonQ cmdA) storeEmpty).cmdQ.isEmpty = true ∧
    (parse000 gNone bufBad 4 (singletonQ cmdA) storeEmpty).events
      = [.failEv 0x50, .logBadEv 0x50] := by
  exact ⟨rfl, by decide, rfl, rfl⟩

/-- C5 amended: for a frame whose leading byte matches none of the
recognized type codes, with a non-empty Command Queue, the oldest
pending command is ALWAYS dequeued: if it is of headless-string kind the
frame is delivered to its string callback (and its response slot
written); otherwise its failure callback (when registered) is invoked
with the leading byte and the store is untouched.  The frame is logged
in every case, and with an empty queue it is only logged and dropped —
never fatal. -/
theorem C5_unrecognized_always_consumes (g : Globals) (buf : Nat → Nat) (len : Nat)
    (q : NexEventQueue) (store : NexResponseQueue)
    (hb : recognizedHead (buf 0 % 256) = false) :
    (q.isEmpty = true →
       parse000 g buf len q store = ⟨[.logBadEv (buf 0 % 256)], q, store⟩) ∧
    (q.isEmpty = false → (q.dequeue).1.cmdType = CommandTypes.CT_stringHeadless →
       parse000 g buf len q store
         = ⟨(if (q.dequeue).1.strCB then [.strEv 0 (sizeSub len 2)] else [])
              ++ [.logBadEv (buf 0 % 256)], (q.dequeue).2,
            (store.storeData (q.dequeue).1 len buf).2⟩) ∧
    (q.isEmpty = false → (q.dequeue).1.cmdType ≠ CommandTypes.CT_stringHeadless →
       parse000 g buf len q store
         = ⟨(if (q.dequeue).1.failCB
             then [.failEv (buf 0 % 256), .logBadEv (buf 0 % 256)]
             else [.logBadEv (buf 0 % 256)]), (q.dequeue).2, store⟩) := by
  simp only [recognizedHead, Bool.or_eq_false_iff, beq_eq_false_iff_ne] at hb
  obtain ⟨⟨⟨⟨⟨⟨⟨⟨⟨⟨⟨⟨h00, h01⟩, h24⟩, h65⟩, h66⟩, h70⟩, h71⟩, h67⟩, h68⟩, h86⟩,
    h87⟩, h88⟩, h89⟩ := hb
  refine ⟨?_, ?_, ?_⟩
  · intro he
    simp only [parse000]
    norm_num [he, h00, h01, h24, h65, h66, h70, h71, h67, h68, h86, h87, h88, h89,
      NEX_RET_EVENT_NEXTION_STARTUP, NEX_RET_CMD_FINISHED_OK,
      NEX_RET_SERIAL_BUFFER_OVERFLOW, NEX_RET_EVENT_TOUCH_HEAD,
      NEX_RET_CURRENT_PAGE_ID_HEAD, NEX_RET_STRING_HEAD, NEX_RET_NUMBER_HEAD,
      NEX_RET_EVENT_POSITION_HEAD, NEX_RET_EVENT_SLEEP_POSITION_HEAD,
      NEX_RET_AUTOMATIC_SLEEP, NEX_RET_AUTOMATIC_WAKE_UP,
      NEX_RET_EVENT_NEXTION_READY, NEX_RET_START_SD_UPGRADE]
  · intro hne hh
    simp only [parse000]
    norm_num [hne, hh, h00, h01, h24, h65, h66, h70, h71, h67, h68, h86, h87, h88,
      h89, NEX_RET_EVENT_NEXTION_STARTUP, NEX_RET_CMD_FINISHED_OK,
      NEX_RET_SERIAL_BUFFER_OVERFLOW, NEX_RET_EVENT_TOUCH_HEAD,
      NEX_RET_CURRENT_PAGE_ID_HEAD, NEX_RET_STRING_HEAD, NEX_RET_NUMBER_HEAD,
      NEX_RET_EVENT_POSITION_HEAD, NEX_RET_EVENT_SLEEP_POSITION_HEAD,
      NEX_RET_AUTOMATIC_SLEEP, NEX_RET_AUTOMATIC_WAKE_UP,
      NEX_RET_EVENT_NEXTION_READY, NEX_RET_START_SD_UPGRADE]
  · intro hne hh
    simp only [parse000]
    norm_num [hne, hh, h00, h01, h24, h65, h66, h70, h71, h67, h68, h86, h87, h88,
      h89, NEX_RET_EVENT_NEXTION_STARTUP, NEX_RET_CMD_FINISHED_OK,
      NEX_RET_SERIAL_BUFFER_OVERFLOW, NEX_RET_EVENT_TOUCH_HEAD,
      NEX_RET_CURRENT_PAGE_ID_HEAD, NEX_RET_STRING_HEAD, NEX_RET_NUMBER_HEAD,
      NEX_RET_EVENT_POSITION_HEAD, NEX_RET_EVENT_SLEEP_POSITION_HEAD,
      NEX_RET_AUTOMATIC_SLEEP, NEX_RET_AUTOMATIC_WAKE_UP,
      NEX_RET_EVENT_NEXTION_READY, NEX_RET_START_SD_UPGRADE]
    split_ifs <;> rfl

/-- C5 witness: the amended theorem's non-headless clause at the
concrete unrecognized frame `0x50 FF FF FF` against the pending `cmdA`. -/
theorem C5_witness :
    parse000 gNone bufBad 4 (singletonQ cmdA) storeEmpty
      = ⟨(if ((singletonQ cmdA).dequeue).1.failCB
          then [.failEv (bufBad 0 % 256), .logBadEv (bufBad 0 % 256)]
          else [.logBadEv (bufBad 0 % 256)]),
         ((singletonQ cmdA).dequeue).2, storeEmpty⟩ :=
  (C5_unrecognized_always_consumes gNone bufBad 4 (singletonQ cmdA) storeEmpty
    (by decide)).2.2 rfl (by decide)

/-- C6: for every correlated frame (leading byte 0x01, 0x70 or 0x71)
dispatched (older revision) against a non-empty queue whose head has a
failure callback, when the leading byte differs from the head's expected
success code the failure callback is invoked exactly once — the emitted
delivery list is precisely one failure event carrying the actual
received code — the head command is consumed, and the dispatcher returns
normally with the advanced queue. -/
theorem C6_mismatch_invokes_failure_once (g : Globals) (buf : Nat → Nat) (len : Nat)
    (q : NexEventQueue) (store : NexResponseQueue)
    (hb : buf 0 % 256 = 0x01 ∨ buf 0 % 256 = 0x70 ∨ buf 0 % 256 = 0x71)
    (hne : q.isEmpty = false)
    (hf : (q.dequeue).1.failCB = true)
    (hm : buf 0 % 256 ≠ (q.dequeue).1.successReturnCode) :
    (parse000 g buf len q store).events = [.failEv (buf 0 % 256)] ∧
    (parse000 g buf len q store).cmdQ = (q.dequeue).2 := by
  rcases hb with hb | hb | hb <;>
  · rw [hb] at hm ⊢
    simp only [parse000, hb]
    norm_num [hne, hm, hf, NEX_RET_EVENT_NEXTION_STARTUP, NEX_RET_CMD_FINISHED_OK,
      NEX_RET_SERIAL_BUFFER_OVERFLOW, NEX_RET_EVENT_TOUCH_HEAD,
      NEX_RET_CURRENT_PAGE_ID_HEAD, NEX_RET_STRING_HEAD, NEX_RET_NUMBER_HEAD]

/-- C6 witness: the boundary numeric frame (code `0x71`) against the
pending acknowledgement command `cmdA` (expects 1, failure callback
registered): exactly one failure delivery with code `0x71`. -/
theorem C6_witness :
    (parse000 gNone bufNum 8 (singletonQ cmdA) storeEmpty).events
      = [.failEv (bufNum 0 % 256)] ∧
    (parse000 gNone bufNum 8 (singletonQ cmdA) storeEmpty).cmdQ
      = ((singletonQ cmdA).dequeue).2 :=
  C6_mismatch_invokes_failure_once gNone bufNum 8 (singletonQ cmdA) storeEmpty
    (Or.inr (Or.inr rfl)) rfl rfl (by decide)

/-- C10: commands without a reserved Response Store slot never touch the
store.  (1) `storeData` on any event whose `response` pointer is null
returns `false` and leaves every store record unchanged; (2)–(4) the
non-blocking `prepRetNumber` / `prepRetString` / `prepRetCode` paths all
build their queued command with a null `response`; (5) dispatching any
frame (older revision) against a non-empty queue whose head carries a
null `response` leaves the entire Response Store unchanged. -/
theorem C10_null_slot_store_untouched :
    (∀ (cmd : NexQueuedCommand) (len : Nat) (buf : Nat → Nat)
        (store : NexResponseQueue),
        cmd.response = none → store.storeData cmd len buf = (false, store)) ∧
    (∀ rc rcb fcb now t, (prepRetNumberEvent rc rcb fcb now t).response = none) ∧
    (∀ rc rcb fcb sf now t, (prepRetStringEvent rc rcb fcb sf now t).response = none) ∧
    (∀ rc fcb now t, (prepRetCodeEvent rc fcb now t).response = none) ∧
    (∀ (g : Globals) (buf : Nat → Nat) (len : Nat) (q : NexEventQueue)
        (store : NexResponseQueue),
        q.isEmpty = false → (q.dequeue).1.response = none →
        (parse000 g buf len q store).respQ = store) := by
  refine ⟨?_, ?_, ?_, ?_, ?_⟩
  · intro cmd len buf store h
    simp [NexResponseQueue.storeData, h]
  · intro _ _ _ _ _; rfl
  · intro _ _ _ _ _ _; rfl
  · intro _ _ _ _; rfl
  · intro g buf len q store hne hresp
    have hs : store.storeData (q.dequeue).1 len buf = (false, store) := by
      simp [NexResponseQueue.storeData, hresp]
    by_cases h00 : buf 0 % 256 = 0x00
    · simp only [parse000, h00]
      norm_num [NEX_RET_EVENT_NEXTION_STARTUP, hne]
      split_ifs <;> rfl
    · by_cases h01 : buf 0 % 256 = 0x01
      · simp only [parse000, h01]
        norm_num [NEX_RET_EVENT_NEXTION_STARTUP, NEX_RET_CMD_FINISHED_OK, hne]
        rw [hs]
      · by_cases h24 : buf 0 % 256 = 0x24
        · simp only [parse000, h24]
          norm_num [NEX_RET_EVENT_NEXTION_STARTUP, NEX_RET_CMD_FINISHED_OK,
            NEX_RET_SERIAL_BUFFER_OVERFLOW]
        · by_cases h65 : buf 0 % 256 = 0x65
          · simp only [parse000, h65]
            norm_num [NEX_RET_EVENT_NEXTION_STARTUP, NEX_RET_CMD_FINISHED_OK,
              NEX_RET_SERIAL_BUFFER_OVERFLOW, NEX_RET_EVENT_TOUCH_HEAD]
            split_ifs <;> rfl
          · by_cases h66 : buf 0 % 256 = 0x66
            · simp only [parse000, h66]
              norm_num [NEX_RET_EVENT_NEXTION_STARTUP, NEX_RET_CMD_FINISHED_OK,
                NEX_RET_SERIAL_BUFFER_OVERFLOW, NEX_RET_EVENT_TOUCH_HEAD,
                NEX_RET_CURRENT_PAGE_ID_HEAD]
              split_ifs <;> rfl
            · by_cases h70 : buf 0 % 256 = 0x70
              · simp only [parse000, h70]
                norm_num [NEX_RET_EVENT_NEXTION_STARTUP, NEX_RET_CMD_FINISHED_OK,
                  NEX_RET_SERIAL_BUFFER_OVERFLOW, NEX_RET_EVENT_TOUCH_HEAD,
                  NEX_RET_CURRENT_PAGE_ID_HEAD, NEX_RET_STRING_HEAD, hne]
                split_ifs <;> first | rfl | (rw [hs])
              · by_cases h71 : buf 0 % 256 = 0x71
                · simp only [parse000, h71]
                  norm_num [NEX_RET_EVENT_NEXTION_STARTUP, NEX_RET_CMD_FINISHED_OK,
                    NEX_RET_SERIAL_BUFFER_OVERFLOW, NEX_RET_EVENT_TOUCH_HEAD,
                    NEX_RET_CURRENT_PAGE_ID_HEAD, NEX_RET_STRING_HEAD,
                    NEX_RET_NUMBER_HEAD, hne]
                  split_ifs <;> first | rfl | (rw [hs])
                · by_cases h67 : buf 0 % 256 = 0x67
                  · simp only [parse000, h67]
                    norm_num [NEX_RET_EVENT_NEXTION_STARTUP, NEX_RET_CMD_FINISHED_OK,
                      NEX_RET_SERIAL_BUFFER_OVERFLOW, NEX_RET_EVENT_TOUCH_HEAD,
                      NEX_RET_CURRENT_PAGE_ID_HEAD, NEX_RET_STRING_HEAD,
                      NEX_RET_NUMBER_HEAD, NEX_RET_EVENT_POSITION_HEAD]
                    split_ifs <;> rfl
                  · by_cases h68 : buf 0 % 256 = 0x68
                    · simp only [parse000, h68]
                      norm_num [NEX_RET_EVENT_NEXTION_STARTUP, NEX_RET_CMD_FINISHED_OK,
                        NEX_RET_SERIAL_BUFFER_OVERFLOW, NEX_RET_EVENT_TOUCH_HEAD,
                        NEX_RET_CURRENT_PAGE_ID_HEAD, NEX_RET_STRING_HEAD,
                        NEX_RET_NUMBER_HEAD, NEX_RET_EVENT_POSITION_HEAD,
                        NEX_RET_EVENT_SLEEP_POSITION_HEAD]
                      split_ifs <;> rfl
                    · by_cases h86 : buf 0 % 256 = 0x86
                      · simp only [parse000, h86]
                        norm_num [NEX_RET_EVENT_NEXTION_STARTUP,
                          NEX_RET_CMD_FINISHED_OK, NEX_RET_SERIAL_BUFFER_OVERFLOW,
                          NEX_RET_EVENT_TOUCH_HEAD, NEX_RET_CURRENT_PAGE_ID_HEAD,
                          NEX_RET_STRING_HEAD, NEX_RET_NUMBER_HEAD,
                          NEX_RET_EVENT_POSITION_HEAD,
                          NEX_RET_EVENT_SLEEP_POSITION_HEAD, NEX_RET_AUTOMATIC_SLEEP]
                        split_ifs <;> rfl
                      · by_cases h87 : buf 0 % 256 = 0x87
                        · simp only [parse000, h87]
                          norm_num [NEX_RET_EVENT_NEXTION_STARTUP,
                            NEX_RET_CMD_FINISHED_OK, NEX_RET_SERIAL_BUFFER_OVERFLOW,
                            NEX_RET_EVENT_TOUCH_HEAD, NEX_RET_CURRENT_PAGE_ID_HEAD,
                            NEX_RET_STRING_HEAD, NEX_RET_NUMBER_HEAD,
                            NEX_RET_EVENT_POSITION_HEAD,
                            NEX_RET_EVENT_SLEEP_POSITION_HEAD,
                            NEX_RET_AUTOMATIC_SLEEP, NEX_RET_AUTOMATIC_WAKE_UP]
                          split_ifs <;> rfl
                        · by_cases h88 : buf 0 % 256 = 0x88
                          · simp only [parse000, h88]
                            norm_num [NEX_RET_EVENT_NEXTION_STARTUP,
                              NEX_RET_CMD_FINISHED_OK, NEX_RET_SERIAL_BUFFER_OVERFLOW,
                              NEX_RET_EVENT_TOUCH_HEAD, NEX_RET_CURRENT_PAGE_ID_HEAD,
                              NEX_RET_STRING_HEAD, NEX_RET_NUMBER_HEAD,
                              NEX_RET_EVENT_POSITION_HEAD,
                              NEX_RET_EVENT_SLEEP_POSITION_HEAD,
                              NEX_RET_AUTOMATIC_SLEEP, NEX_RET_AUTOMATIC_WAKE_UP,
                              NEX_RET_EVENT_NEXTION_READY]
                          · by_cases h89 : buf 0 % 256 = 0x89
                            · simp only [parse000, h89]
                              norm_num [NEX_RET_EVENT_NEXTION_STARTUP,
                                NEX_RET_CMD_FINISHED_OK,
                                NEX_RET_SERIAL_BUFFER_OVERFLOW,
                                NEX_RET_EVENT_TOUCH_HEAD,
                                NEX_RET_CURRENT_PAGE_ID_HEAD, NEX_RET_STRING_HEAD,
                                NEX_RET_NUMBER_HEAD, NEX_RET_EVENT_POSITION_HEAD,
                                NEX_RET_EVENT_SLEEP_POSITION_HEAD,
                                NEX_RET_AUTOMATIC_SLEEP, NEX_RET_AUTOMATIC_WAKE_UP,
                                NEX_RET_EVENT_NEXTION_READY, NEX_RET_START_SD_UPGRADE]
                            · simp only [parse000]
                              norm_num [NEX_RET_EVENT_NEXTION_STARTUP,
                                NEX_RET_CMD_FINISHED_OK,
                                NEX_RET_SERIAL_BUFFER_OVERFLOW,
                                NEX_RET_EVENT_TOUCH_HEAD,
                                NEX_RET_CURRENT_PAGE_ID_HEAD, NEX_RET_STRING_HEAD,
                                NEX_RET_NUMBER_HEAD, NEX_RET_EVENT_POSITION_HEAD,
                                NEX_RET_EVENT_SLEEP_POSITION_HEAD,
                                NEX_RET_AUTOMATIC_SLEEP, NEX_RET_AUTOMATIC_WAKE_UP,
                                NEX_RET_EVENT_NEXTION_READY, NEX_RET_START_SD_UPGRADE,
                                h00, h01, h24, h65, h66, h70, h71, h67, h68, h86,
                                h87, h88, h89, hne]
                              split_ifs <;> first | rfl | (rw [hs])

/-- C10 witness: `storeData` on the slotless `cmdA` with a concrete
store and frame, and the slotless shape of a concrete `prepRetNumber`
command. -/
theorem C10_witness :
    storeEmpty.storeData cmdA 4 bufBad = (false, storeEmpty) ∧
    (prepRetNumberEvent 0x71 true false 0 100).response = none :=
  ⟨C10_null_slot_store_untouched.1 cmdA 4 bufBad storeEmpty rfl,
   C10_null_slot_store_untouched.2.1 0x71 true false 0 100⟩

end Nextion
